import Mathlib

/-!
Verification development for the VoidGlaive moderation-bot repository.

The repository contains two near-duplicate bot variants:
  * `src/discord-bot.py` (slash commands, disnake SDK)
  * `src/stoat-bot.py`   (prefix commands, stoat SDK)

This file shallowly embeds the command-dispatch and moderation-action
pipeline of both variants.  Pure data manipulation (the warnings store,
the per-guild config store, target-identifier parsing, range clamping)
is translated directly; the external chat platform (member fetches, DM
sends, kicks/bans/role edits that may raise a permission error) is
modelled as an oracle record of booleans, and each command is embedded
as a function returning the ordered list of effects it performs, from
which user messages, audit entries and platform mutations are read off.

Modelling conventions, stated once:
  * Python dicts preserve insertion order and have unique keys; both
    JSON-backed stores are embedded as association lists in insertion
    order, and the operations below reproduce `setdefault(..).append`,
    `del d[k]` and `d.get(k, default)` on such lists.
  * Discord snowflake IDs (Python `int`) are embedded as `String` —
    only equality and formatting of IDs matter anywhere in the code.
  * Message strings keep the source text minus the leading emoji
    decoration, which no claim depends on.
  * `await x.send(...)` inside `try/except: pass` is the effect
    `Effect.dmAttempt ok`; a platform mutation appears in the trace as
    an effect carrying `ok : Bool`, `false` meaning the platform raised
    its permission error (`disnake.Forbidden` / a generic `Exception`
    in the stoat variant) at that call.
-/

/-- One stored warning record: the JSON object appended by `warn`
(`{reason, mod_id, mod_tag, timestamp}` in both variants). -/
structure WRecord where
  reason    : String
  mod_id    : String
  mod_tag   : String
  timestamp : String
deriving DecidableEq, Repr

/-- The warnings store: `{ "guild_id:user_id": [record, ...] }`,
a Python dict embedded as an insertion-ordered association list. -/
def Store := List (String × List WRecord)
deriving DecidableEq

/-- `warning_key` from both sources: `f"{guild_id}:{user_id}"`. -/
def warning_key (guild_id user_id : String) : String :=
  guild_id ++ ":" ++ user_id

/-- Dict lookup `warnings.get(key)` / `key in warnings`. -/
def storeGet : Store → String → Option (List WRecord)
  | [], _ => none
  | (k', v) :: rest, k => if k' = k then some v else storeGet rest k

/-- `warnings.setdefault(key, []).append(rec)`: append to the list in
place if the key exists, otherwise insert the key at the end (Python
dict insertion order) bound to the one-element list. -/
def warnAppend : Store → String → WRecord → Store
  | [], k, r => [(k, [r])]
  | (k', v) :: rest, k, r =>
      if k' = k then (k', v ++ [r]) :: rest
      else (k', v) :: warnAppend rest k r

/-- `del warnings[key]`. -/
def storeDelete : Store → String → Store
  | [], _ => []
  | (k', v) :: rest, k =>
      if k' = k then rest else (k', v) :: storeDelete rest k

/-- Per-guild configuration record (`config.json` value shape):
`{log_channel_id?, autorole_id?, mute_role_id?}`.  An absent field is
`none` (the Python code tests the looked-up value for truthiness). -/
structure GuildCfg where
  log_channel_id : Option String := none
  autorole_id    : Option String := none
  mute_role_id   : Option String := none
deriving DecidableEq, Repr

/-- The config store: guild-ID-keyed association list. -/
def CfgStore := List (String × GuildCfg)
deriving DecidableEq

def cfgStoreGet : CfgStore → String → Option GuildCfg
  | [], _ => none
  | (k', v) :: rest, k => if k' = k then some v else cfgStoreGet rest k

/-- `cfg(guild_id)` as a read: the guild's config record, or the empty
record when the guild has no entry.  (The source's `setdefault` also
inserts the empty record into the in-memory dict on first access; that
insertion changes no lookup result and is never saved on a pure read,
so the read-only view suffices for every claim.) -/
def cfgGet (cs : CfgStore) (g : String) : GuildCfg :=
  (cfgStoreGet cs g).getD {}

/-- An audit-log entry as written by `audit(action, guild_id, user_id)`
(the wrapper prepends a timestamp; the claim-relevant content is the
action text and the two optional IDs). -/
structure AuditEntry where
  action : String
  guild  : Option String := none
  user   : Option String := none
deriving DecidableEq, Repr

/-- One observable effect of a command body, in program order. -/
inductive Effect where
  /-- A user-visible response in the invoking context. -/
  | userMsg (s : String)
  /-- A best-effort DM to the target inside `try/except: pass`;
  `ok = false` means the send raised and was swallowed. -/
  | dmAttempt (ok : Bool)
  /-- `warnings.setdefault(key, []).append(...)`. -/
  | storeAppend (key : String)
  /-- `del warnings[key]`. -/
  | storeDeleteKey (key : String)
  /-- `save_json(WARNINGS_FILE, warnings)`. -/
  | saveWarnings
  /-- `save_json(CONFIG_FILE, ...)`. -/
  | saveConfig
  /-- `audit(...)`: one line appended to `audit.log` (and stdout). -/
  | audit (e : AuditEntry)
  /-- A post to the guild's configured log channel (best-effort). -/
  | logPost
  /-- `member.kick(...)`; `ok = false`: the platform raised. -/
  | platformKick (uid : String) (ok : Bool)
  /-- `member.ban(reason, delete_message_days=days)`. -/
  | platformBan (uid : String) (days : Int) (ok : Bool)
  /-- `guild.unban(...)` / `server.unban(uid)`. -/
  | platformUnban (uid : String) (ok : Bool)
  /-- `member.add_roles(role)`. -/
  | platformAddRole (uid rid : String) (ok : Bool)
  /-- `member.remove_roles(role)`. -/
  | platformRemoveRole (uid rid : String) (ok : Bool)
  /-- stoat `member.edit(roles=...)`. -/
  | platformEditRoles (uid : String) (roles : List String) (ok : Bool)
  /-- `channel.purge(limit=amount)`. -/
  | platformPurge (amount : Int)
  /-- `channel.edit(slowmode_delay=seconds)`. -/
  | platformSlowmode (seconds : Int) (ok : Bool)
  /-- `channel.set_permissions(default_role, overwrite)` with the
  `send_messages` value carried by the overwrite. -/
  | platformSetPerms (sendMessages : Option Bool) (ok : Bool)
  /-- An exception escaping the body and handled as an unexpected
  error by the framework-level error handler. -/
  | unexpected
deriving DecidableEq, Repr

/-- The user-visible messages of a trace, in order. -/
def msgsOf (tr : List Effect) : List String :=
  tr.filterMap fun e => match e with
    | .userMsg s => some s
    | _ => none

/-- The audit entries appended by a trace, in order. -/
def auditOf (tr : List Effect) : List AuditEntry :=
  tr.filterMap fun e => match e with
    | .audit a => some a
    | _ => none

/-- Whether an effect is a mutating platform call or a store write
(anything beyond messages, DMs, audit lines and log posts). -/
def Effect.isMutation : Effect → Bool
  | .userMsg _ | .dmAttempt _ | .audit _ | .logPost | .unexpected => false
  | _ => true

/-- Platform oracle for the discord variant: whether each kind of
platform call succeeds (`false` = the call raises `disnake.Forbidden`),
and which role IDs exist in the guild. -/
structure Env where
  dmOk          : Bool := true
  kickOk        : Bool := true
  banOk         : Bool := true
  addRolesOk    : Bool := true
  removeRolesOk : Bool := true
  channelEditOk : Bool := true
  setPermsOk    : Bool := true
  purgedCount   : Nat  := 0
  roleExists    : String → String → Bool := fun _ _ => true
deriving Inhabited

/-- A guild member / user as the commands observe it. -/
structure Member where
  id      : String
  tag     : String
  isBot   : Bool := false
  roleIds : List String := []
deriving DecidableEq, Repr

/-! ### discord-bot.py command bodies

Each function embeds the body of one slash command, entered after the
framework's `has_permissions` gate has passed and `inter.response.defer()`
has run.  `guild : Option String` is `inter.guild` (the `guild_guard`
branch), and `chText : Bool` is whether `inter.channel` is a text
channel (the `channel_guard` branch). -/

def serverOnlyMsg : String := "This command can only be used in a server."
def textChannelOnlyMsg : String := "This command can only be used in a text channel."

/-- A mention token for a user ID, as interpolated into responses. -/
def mention (uid : String) : String := "<@" ++ uid ++ ">"

/-- Result of one `warn` body: the updated warnings store, the total it
reported (`total = len(warnings[key])` after the append; `none` on the
error paths which report no total), and the effect trace. -/
structure WarnResult where
  store         : Store
  reportedTotal : Option Nat
  trace         : List Effect

/-- `warn` (discord-bot.py lines 432-468): guild guard, bot-target
guard, append the record, save, compute the total, best-effort DM,
respond, audit, log-channel post. -/
def discordWarn (env : Env) (st : Store) (guild : Option String)
    (author member : Member) (reason now : String) : WarnResult :=
  match guild with
  | none => ⟨st, none, [.userMsg serverOnlyMsg]⟩
  | some gid =>
    if member.isBot then
      ⟨st, none, [.userMsg "You cannot warn a bot."]⟩
    else
      let key := warning_key gid member.id
      let r : WRecord := ⟨reason, author.id, author.tag, now⟩
      let st' := warnAppend st key r
      let total := ((storeGet st' key).getD []).length
      ⟨st', some total,
        [.storeAppend key, .saveWarnings, .dmAttempt env.dmOk,
         .userMsg (mention member.id ++ " warned.  Reason: " ++ reason
                   ++ "  (Total: " ++ toString total ++ ")"),
         .audit ⟨"warn  target=" ++ member.id ++ "  reason=" ++ reason,
                 some gid, some author.id⟩,
         .logPost]⟩

/-- The numbered entry list displayed by the `warnings` view command
(discord-bot.py lines 471-489): the stored list for the key, enumerated
from 1 in insertion order.  The empty list corresponds to the
"has no warnings." response branch. -/
def discordViewList (st : Store) (gid uid : String) : List (Nat × WRecord) :=
  let wlist := (storeGet st (warning_key gid uid)).getD []
  (List.range' 1 wlist.length).zip wlist

/-- `clear_warnings` (discord-bot.py lines 492-506): if the key is
present, delete it and save; else report nothing to clear; audit in
both branches. -/
def discordClearWarnings (st : Store) (guild : Option String)
    (author member : Member) : Store × List Effect :=
  match guild with
  | none => (st, [.userMsg serverOnlyMsg])
  | some gid =>
    let key := warning_key gid member.id
    let auditE : Effect :=
      .audit ⟨"clear_warnings  target=" ++ member.id, some gid, some author.id⟩
    if (storeGet st key).isSome then
      (storeDelete st key,
       [.storeDeleteKey key, .saveWarnings,
        .userMsg ("All warnings cleared for " ++ mention member.id ++ "."),
        auditE])
    else
      (st, [.userMsg (mention member.id ++ " has no warnings to clear."), auditE])

/-- `kick` (discord-bot.py lines 513-543): guild guard, self-target
guard, best-effort DM, `member.kick` (a `Forbidden` is caught, message,
return), respond, audit, log post. -/
def discordKick (env : Env) (guild : Option String)
    (author member : Member) (reason : String) : List Effect :=
  match guild with
  | none => [.userMsg serverOnlyMsg]
  | some gid =>
    if member = author then [.userMsg "You cannot kick yourself."]
    else
      .dmAttempt env.dmOk ::
      if env.kickOk then
        [.platformKick member.id true,
         .userMsg (member.tag ++ " has been kicked.  Reason: " ++ reason),
         .audit ⟨"kick  target=" ++ member.id ++ "  reason=" ++ reason,
                 some gid, some author.id⟩,
         .logPost]
      else
        [.platformKick member.id false,
         .userMsg "I don't have permission to kick that member."]

/-- `ban` body (discord-bot.py lines 546-579): guild guard, self-target
guard, best-effort DM, clamp `delete_message_days` with
`max(0, min(7, d))`, `member.ban`, respond, audit, log post. -/
def discordBan (env : Env) (guild : Option String)
    (author member : Member) (reason : String)
    (delete_message_days : Int) : List Effect :=
  match guild with
  | none => [.userMsg serverOnlyMsg]
  | some gid =>
    if member = author then [.userMsg "You cannot ban yourself."]
    else
      let safe_days := max 0 (min 7 delete_message_days)
      .dmAttempt env.dmOk ::
      if env.banOk then
        [.platformBan member.id safe_days true,
         .userMsg (member.tag ++ " has been banned.  Reason: " ++ reason),
         .audit ⟨"ban  target=" ++ member.id ++ "  reason=" ++ reason,
                 some gid, some author.id⟩,
         .logPost]
      else
        [.platformBan member.id safe_days false,
         .userMsg "I don't have permission to ban that member."]

/-- The message emitted when the framework rejects an argument that
violates the `commands.Param(ge=.., le=..)` bounds declared on a slash
command's signature; the command body is never entered in that case. -/
def paramRejectedMsg : String := "Invalid parameter value."

def paramInRange (lo hi x : Int) : Bool := decide (lo ≤ x ∧ x ≤ hi)

/-- The `ban` command at dispatch: `delete_message_days` is declared
`commands.Param(default=0, ge=0, le=7)` (line 552), so an out-of-range
value is rejected before the body runs. -/
def discordBanDispatch (env : Env) (guild : Option String)
    (author member : Member) (reason : String)
    (delete_message_days : Int) : List Effect :=
  if paramInRange 0 7 delete_message_days then
    discordBan env guild author member reason delete_message_days
  else
    [.userMsg paramRejectedMsg]

/-- `mute` (discord-bot.py lines 604-638): guild guard, configured
mute-role guard, role-existence guard, already-muted guard,
`member.add_roles` (a `Forbidden` is caught, message, return before the
audit line), respond, audit, log post. -/
def discordMute (env : Env) (cs : CfgStore) (guild : Option String)
    (author member : Member) (reason : String) : List Effect :=
  match guild with
  | none => [.userMsg serverOnlyMsg]
  | some gid =>
    match (cfgGet cs gid).mute_role_id with
    | none => [.userMsg "No muted role configured.  Use /set_mute_role first."]
    | some rid =>
      if ¬ env.roleExists gid rid then
        [.userMsg "The configured muted role no longer exists."]
      else if rid ∈ member.roleIds then
        [.userMsg (mention member.id ++ " is already muted.")]
      else if env.addRolesOk then
        [.platformAddRole member.id rid true,
         .userMsg (mention member.id ++ " has been muted.  Reason: " ++ reason),
         .audit ⟨"mute  target=" ++ member.id ++ "  reason=" ++ reason,
                 some gid, some author.id⟩,
         .logPost]
      else
        [.platformAddRole member.id rid false,
         .userMsg "I don't have permission to manage that member's roles."]

/-- `unmute` (discord-bot.py lines 641-661): guild guard, configured
mute-role guard, not-currently-muted guard, `member.remove_roles` (a
`Forbidden` is caught and reported, but the handler does NOT return, so
the audit line still runs), audit. -/
def discordUnmute (env : Env) (cs : CfgStore) (guild : Option String)
    (author member : Member) : List Effect :=
  match guild with
  | none => [.userMsg serverOnlyMsg]
  | some gid =>
    match (cfgGet cs gid).mute_role_id with
    | none => [.userMsg "No muted role configured."]
    | some rid =>
      if ¬ env.roleExists gid rid ∨ rid ∉ member.roleIds then
        [.userMsg (mention member.id ++ " is not currently muted.")]
      else
        (if env.removeRolesOk then
          [.platformRemoveRole member.id rid true,
           .userMsg (mention member.id ++ " has been unmuted.")]
        else
          [.platformRemoveRole member.id rid false,
           .userMsg "I don't have permission to manage that member's roles."])
        ++ [.audit ⟨"unmute  target=" ++ member.id, some gid, some author.id⟩]

/-- `purge` body (discord-bot.py lines 664-679): guild guard, channel
guard, `channel.purge(limit=amount)`, response with the deleted count,
audit. -/
def discordPurge (env : Env) (guild : Option String) (chText : Bool)
    (author : Member) (amount : Int) : List Effect :=
  match guild with
  | none => [.userMsg serverOnlyMsg]
  | some gid =>
    if ¬ chText then [.userMsg textChannelOnlyMsg]
    else
      [.platformPurge amount,
       .userMsg ("Deleted " ++ toString env.purgedCount ++ " message(s)."),
       .audit ⟨"purge  count=" ++ toString env.purgedCount,
               some gid, some author.id⟩]

/-- The `purge` command at dispatch: `amount` is declared
`commands.Param(ge=1, le=100)` (line 668), so an out-of-range value is
rejected before the body runs. -/
def discordPurgeDispatch (env : Env) (guild : Option String) (chText : Bool)
    (author : Member) (amount : Int) : List Effect :=
  if paramInRange 1 100 amount then
    discordPurge env guild chText author amount
  else
    [.userMsg paramRejectedMsg]

/-- `slowmode` body (discord-bot.py lines 682-702): guild guard,
channel guard, `channel.edit(slowmode_delay=seconds)` (a `Forbidden` is
caught and reported but there is no return, so the audit line still
runs), audit. -/
def discordSlowmode (env : Env) (guild : Option String) (chText : Bool)
    (author : Member) (seconds : Int) : List Effect :=
  match guild with
  | none => [.userMsg serverOnlyMsg]
  | some gid =>
    if ¬ chText then [.userMsg textChannelOnlyMsg]
    else
      (if env.channelEditOk then
        [.platformSlowmode seconds true,
         .userMsg (if seconds = 0 then "Slowmode disabled."
                   else "Slowmode set to " ++ toString seconds ++ "s.")]
      else
        [.platformSlowmode seconds false,
         .userMsg "I don't have permission to edit that channel."])
      ++ [.audit ⟨"slowmode  seconds=" ++ toString seconds,
                  some gid, some author.id⟩]

/-- `lock` (discord-bot.py lines 705-719): guild+text-channel guard,
`set_permissions` with `send_messages = False` (`Forbidden` caught and
reported, no return), audit. -/
def discordLock (env : Env) (guild : Option String) (chText : Bool)
    (author : Member) : List Effect :=
  match guild with
  | none => [.userMsg textChannelOnlyMsg]
  | some gid =>
    if ¬ chText then [.userMsg textChannelOnlyMsg]
    else
      (if env.setPermsOk then
        [.platformSetPerms (some false) true, .userMsg "Channel locked."]
      else
        [.platformSetPerms (some false) false,
         .userMsg "I don't have permission to manage that channel."])
      ++ [.audit ⟨"lock_channel", some gid, some author.id⟩]

/-- `unlock` (discord-bot.py lines 722-736): like `lock` but resets
`send_messages` to inherit (`None`). -/
def discordUnlock (env : Env) (guild : Option String) (chText : Bool)
    (author : Member) : List Effect :=
  match guild with
  | none => [.userMsg textChannelOnlyMsg]
  | some gid =>
    if ¬ chText then [.userMsg textChannelOnlyMsg]
    else
      (if env.setPermsOk then
        [.platformSetPerms none true, .userMsg "Channel unlocked."]
      else
        [.platformSetPerms none false,
         .userMsg "I don't have permission to manage that channel."])
      ++ [.audit ⟨"unlock_channel", some gid, some author.id⟩]

/-! ### stoat-bot.py helpers and command bodies

The stoat variant uses prefix commands; the target arrives as a raw
string argument and is resolved via `parse_user_id` plus platform
fetches.  `messageServerId` is the server ID carried by the invoking
message (`ctx.message.get_server()`), `none` outside any server. -/

/-- Python `str.strip()`: remove leading and trailing whitespace. -/
def pyStrip (s : String) : String :=
  ⟨((s.data.dropWhile Char.isWhitespace).reverse.dropWhile
      Char.isWhitespace).reverse⟩

/-- `parse_user_id` (stoat-bot.py lines 124-129): strip whitespace,
strip `<@...>` mention decoration (`argument[2:-1]`), then accept a
non-empty alphanumeric remainder.  Expressed on the character list:
`startswith "<@"` is the `['<', '@']` prefix test, `endswith ">"` is
the last character, and `isalnum` is `Char.isAlphanum` on every
character (Python's `str.isalnum` is Unicode-wider; no claim depends
on the exact character class, only on the `None` branch). -/
def parse_user_id (argument : String) : Option String :=
  let a := (pyStrip argument).data
  let a :=
    if ['<', '@'].isPrefixOf a ∧ a.getLast? = some '>' then
      (a.drop 2).dropLast
    else a
  if ¬ a.isEmpty ∧ a.all Char.isAlphanum then some ⟨a⟩ else none

/-- `get_server_id` (stoat-bot.py lines 132-135): the message's server
ID, or the sentinel `"DM"` when the message has none (Python tests the
ID for truthiness, so an empty ID also yields `"DM"`). -/
def get_server_id (messageServerId : Option String) : String :=
  match messageServerId with
  | some sid => if sid = "" then "DM" else sid
  | none => "DM"

/-- The predicate inside the `is_admin()` check decorator
(stoat-bot.py lines 117-121): `str(ctx.author.id) in ADMIN_USER_IDS`. -/
def is_admin_pred (adminIds : List String) (actorId : String) : Bool :=
  adminIds.contains actorId

/-- The error classes dispatched by `AdminBot.on_command_error`. -/
inductive CmdError where
  | commandNotFound
  | checkFailure
  | missingRequiredArgument (arg : String)
  | badArgument (msg : String)
  | noData
  | other (msg : String)
deriving DecidableEq, Repr

/-- `AdminBot.on_command_error` (stoat-bot.py lines 245-260): each
branch sends at most one message (unknown commands are silently
ignored; an unexpected error is also printed server-side). -/
def on_command_error : CmdError → List Effect
  | .commandNotFound => []
  | .checkFailure =>
      [.userMsg "You don't have permission to use that command."]
  | .missingRequiredArgument a =>
      [.userMsg ("Missing required argument: " ++ a)]
  | .badArgument m => [.userMsg ("Bad argument: " ++ m)]
  | .noData =>
      [.userMsg "Could not retrieve that user's data from cache - try again."]
  | .other _ => [.userMsg "An unexpected error occurred."]

/-- The mutable state a stoat command can touch: the two JSON-backed
stores and the audit log. -/
structure BotState where
  warnings : Store
  config   : CfgStore
  auditLog : List AuditEntry
deriving DecidableEq

/-- Framework dispatch of one stoat command invocation: when the
command carries the `@is_admin()` check and the predicate rejects the
actor, the command body is never entered — the framework raises
`CheckFailure`, which `on_command_error` turns into the single denial
message.  Otherwise the body runs. -/
def stoatDispatch (adminIds : List String) (hasAdminCheck : Bool)
    (actorId : String) (body : BotState → BotState × List Effect)
    (s : BotState) : BotState × List Effect :=
  if hasAdminCheck && ¬ is_admin_pred adminIds actorId then
    (s, on_command_error .checkFailure)
  else
    body s

/-- Platform oracle for the stoat variant: which user/member fetches
succeed, a member's current role IDs, and whether each mutating call
succeeds (`false` = the call raises and the surrounding `try` catches). -/
structure StoatEnv where
  userExists   : String → Bool := fun _ => true
  memberExists : String → String → Bool := fun _ _ => true
  memberRoles  : String → String → List String := fun _ _ => []
  dmOk         : Bool := true
  kickOk       : Bool := true
  banOk        : Bool := true
  editRolesOk  : Bool := true
  unbanOk      : Bool := true
deriving Inhabited

def invalidUserMsg : String := "Invalid user - provide a mention or user ID."
def couldNotFindUserMsg (uid : String) : String :=
  "Could not find user with ID " ++ uid ++ "."
def memberNotFoundMsg (uid : String) : String :=
  "Could not find member " ++ uid ++ " in this server."

/-- stoat `warn` body (stoat-bot.py lines 347-383): parse the target,
fetch the user, build the key from `get_server_id` (no server guard —
`"DM"` is used as the scope outside a server), append, save, compute
the total, best-effort DM, respond, audit, log post. -/
def stoatWarn (env : StoatEnv) (st : Store) (authorId authorTag : String)
    (messageServerId : Option String) (user_arg reason now : String) :
    WarnResult :=
  match parse_user_id user_arg with
  | none => ⟨st, none, [.userMsg invalidUserMsg]⟩
  | some uid =>
    if ¬ env.userExists uid then
      ⟨st, none, [.userMsg (couldNotFindUserMsg uid)]⟩
    else
      let sid := get_server_id messageServerId
      let key := warning_key sid uid
      let r : WRecord := ⟨reason, authorId, authorTag, now⟩
      let st' := warnAppend st key r
      let total := ((storeGet st' key).getD []).length
      ⟨st', some total,
        [.storeAppend key, .saveWarnings, .dmAttempt env.dmOk,
         .userMsg (mention uid ++ " warned.  Reason: " ++ reason
                   ++ "  (Total: " ++ toString total ++ ")"),
         .audit ⟨"warn  target=" ++ uid ++ "  reason=" ++ reason,
                 some sid, some authorId⟩,
         .logPost]⟩

/-- The numbered entry list displayed by the stoat `warnings` command
(stoat-bot.py lines 386-404) once its parse/fetch preamble succeeded:
the stored list under `warning_key (get_server_id ..) uid`, enumerated
from 1 in insertion order; empty corresponds to the "has no warnings."
response branch. -/
def stoatViewList (st : Store) (messageServerId : Option String)
    (uid : String) : List (Nat × WRecord) :=
  let sid := get_server_id messageServerId
  let wlist := (storeGet st (warning_key sid uid)).getD []
  (List.range' 1 wlist.length).zip wlist

/-- stoat `clear_warnings` (stoat-bot.py lines 407-426): parse, fetch
the user, then delete-and-save or report nothing to clear; audit in
both branches. -/
def stoatClearWarnings (env : StoatEnv) (st : Store) (authorId : String)
    (messageServerId : Option String) (user_arg : String) :
    Store × List Effect :=
  match parse_user_id user_arg with
  | none => (st, [.userMsg invalidUserMsg])
  | some uid =>
    if ¬ env.userExists uid then (st, [.userMsg (couldNotFindUserMsg uid)])
    else
      let sid := get_server_id messageServerId
      let key := warning_key sid uid
      let auditE : Effect :=
        .audit ⟨"clear_warnings  target=" ++ uid, some sid, some authorId⟩
      if (storeGet st key).isSome then
        (storeDelete st key,
         [.storeDeleteKey key, .saveWarnings,
          .userMsg ("All warnings cleared for " ++ mention uid ++ "."),
          auditE])
      else
        (st, [.userMsg (mention uid ++ " has no warnings to clear."), auditE])

/-- stoat `kick` (stoat-bot.py lines 433-466): parse, self-target
guard, server guard, `fetch_server` + `fetch_member` (failure aborts),
best-effort `fetch_user` (failure only changes the display string,
abstracted away) and DM, `member.kick()`, respond, audit, log post. -/
def stoatKick (env : StoatEnv) (authorId : String)
    (messageServerId : Option String) (user_arg reason : String) :
    List Effect :=
  match parse_user_id user_arg with
  | none => [.userMsg invalidUserMsg]
  | some uid =>
    if uid = authorId then [.userMsg "You cannot kick yourself."]
    else
      let sid := get_server_id messageServerId
      if sid = "DM" then [.userMsg serverOnlyMsg]
      else if ¬ env.memberExists sid uid then [.userMsg (memberNotFoundMsg uid)]
      else
        .dmAttempt env.dmOk ::
        if env.kickOk then
          [.platformKick uid true,
           .userMsg (uid ++ " has been kicked.  Reason: " ++ reason),
           .audit ⟨"kick  target=" ++ uid ++ "  reason=" ++ reason,
                   some sid, some authorId⟩,
           .logPost]
        else
          [.platformKick uid false,
           .userMsg "I don't have permission to kick that member."]

/-- stoat `ban` (stoat-bot.py lines 469-502): same shape as `kick`
with `member.ban()`. -/
def stoatBan (env : StoatEnv) (authorId : String)
    (messageServerId : Option String) (user_arg reason : String) :
    List Effect :=
  match parse_user_id user_arg with
  | none => [.userMsg invalidUserMsg]
  | some uid =>
    if uid = authorId then [.userMsg "You cannot ban yourself."]
    else
      let sid := get_server_id messageServerId
      if sid = "DM" then [.userMsg serverOnlyMsg]
      else if ¬ env.memberExists sid uid then [.userMsg (memberNotFoundMsg uid)]
      else
        .dmAttempt env.dmOk ::
        if env.banOk then
          [.platformBan uid 0 true,
           .userMsg (uid ++ " has been banned.  Reason: " ++ reason),
           .audit ⟨"ban  target=" ++ uid ++ "  reason=" ++ reason,
                   some sid, some authorId⟩,
           .logPost]
        else
          [.platformBan uid 0 false,
           .userMsg "I don't have permission to ban that member."]

/-- stoat `unban` (stoat-bot.py lines 505-522): parse, server guard,
`fetch_server` + `server.unban(uid)` in one `try` (`unbanOk = false`
models that block raising at the unban call), respond, audit, log
post. -/
def stoatUnban (env : StoatEnv) (authorId : String)
    (messageServerId : Option String) (user_id_arg : String) :
    List Effect :=
  match parse_user_id user_id_arg with
  | none => [.userMsg invalidUserMsg]
  | some uid =>
    let sid := get_server_id messageServerId
    if sid = "DM" then [.userMsg serverOnlyMsg]
    else if env.unbanOk then
      [.platformUnban uid true,
       .userMsg (uid ++ " has been unbanned."),
       .audit ⟨"unban  target=" ++ uid, some sid, some authorId⟩,
       .logPost]
    else
      [.platformUnban uid false, .userMsg ("Could not unban " ++ uid ++ ".")]

/-- stoat `mute` (stoat-bot.py lines 529-561): parse, server guard,
configured-mute-role guard, member fetch, already-muted guard,
`member.edit(roles=current + [mute_role])`, respond, audit, log
post. -/
def stoatMute (env : StoatEnv) (cs : CfgStore) (authorId : String)
    (messageServerId : Option String) (user_arg reason : String) :
    List Effect :=
  match parse_user_id user_arg with
  | none => [.userMsg invalidUserMsg]
  | some uid =>
    let sid := get_server_id messageServerId
    if sid = "DM" then [.userMsg serverOnlyMsg]
    else
      match (cfgGet cs sid).mute_role_id with
      | none => [.userMsg "No mute role configured. Use set_mute_role first."]
      | some mrid =>
        if ¬ env.memberExists sid uid then [.userMsg (memberNotFoundMsg uid)]
        else
          let current_roles := env.memberRoles sid uid
          if mrid ∈ current_roles then
            [.userMsg "That member is already muted."]
          else if env.editRolesOk then
            [.platformEditRoles uid (current_roles ++ [mrid]) true,
             .userMsg (uid ++ " has been muted.  Reason: " ++ reason),
             .audit ⟨"mute  target=" ++ uid ++ "  reason=" ++ reason,
                     some sid, some authorId⟩,
             .logPost]
          else
            [.platformEditRoles uid (current_roles ++ [mrid]) false,
             .userMsg "Could not mute that member."]

/-- stoat `unmute` (stoat-bot.py lines 564-596): parse, server guard,
configured-mute-role guard, member fetch, not-muted guard,
`member.edit(roles=current minus the mute role)`, respond, audit, log
post. -/
def stoatUnmute (env : StoatEnv) (cs : CfgStore) (authorId : String)
    (messageServerId : Option String) (user_arg : String) : List Effect :=
  match parse_user_id user_arg with
  | none => [.userMsg invalidUserMsg]
  | some uid =>
    let sid := get_server_id messageServerId
    if sid = "DM" then [.userMsg serverOnlyMsg]
    else
      match (cfgGet cs sid).mute_role_id with
      | none => [.userMsg "No mute role configured. Use set_mute_role first."]
      | some mrid =>
        if ¬ env.memberExists sid uid then [.userMsg (memberNotFoundMsg uid)]
        else
          let current_roles := env.memberRoles sid uid
          if mrid ∉ current_roles then
            [.userMsg "That member is not muted."]
          else if env.editRolesOk then
            [.platformEditRoles uid (current_roles.filter (· ≠ mrid)) true,
             .userMsg (uid ++ " has been unmuted."),
             .audit ⟨"unmute  target=" ++ uid, some sid, some authorId⟩,
             .logPost]
          else
            [.platformEditRoles uid (current_roles.filter (· ≠ mrid)) false,
             .userMsg "Could not unmute that member."]

/-! ### Sequenced warns and effect-order helpers -/

/-- The record one warn call with payload `(reason, timestamp)` by
`author` appends. -/
def mkWRecord (author : Member) (c : String × String) : WRecord :=
  ⟨c.1, author.id, author.tag, c.2⟩

/-- A sequence of discord `warn` invocations by the same moderator on
the same member, each call running on the store the previous one left;
returns the final store and the totals each call reported. -/
def warnSeq (env : Env) (guild : Option String) (author member : Member) :
    Store → List (String × String) → Store × List (Option Nat)
  | st, [] => (st, [])
  | st, c :: rest =>
    let r := discordWarn env st guild author member c.1 c.2
    let next := warnSeq env guild author member r.store rest
    (next.1, r.reportedTotal :: next.2)

def Effect.isDmAttempt : Effect → Bool
  | .dmAttempt _ => true
  | _ => false

def Effect.isStoreAppend : Effect → Bool
  | .storeAppend _ => true
  | _ => false

/-! ### JSON persistence model (save_json / load_json)

`save_json` and `load_json` are thin wrappers over the `json` module:
save overwrites the file with the serialized dict (an exception is
caught and logged, leaving the file as it was); load parses the file,
degrading to `{}` on a missing file or a parse error.  The embedding
keeps the file at the JSON-document level: text rendering and parsing
of well-formed documents is the `json` module's inverse pair and is
external to this repository, while the shape-faithfulness of what the
stores write and read back is proved below. -/

inductive Json where
  | null
  | bool (b : Bool)
  | num (n : Int)
  | str (s : String)
  | arr (xs : List Json)
  | obj (kvs : List (String × Json))

/-- How `json.dump` views one warning record. -/
def recToJson (r : WRecord) : Json :=
  .obj [("reason", .str r.reason), ("mod_id", .str r.mod_id),
        ("mod_tag", .str r.mod_tag), ("timestamp", .str r.timestamp)]

def storeEntriesToJson : Store → List (String × Json)
  | [] => []
  | (k, v) :: rest => (k, .arr (v.map recToJson)) :: storeEntriesToJson rest

/-- How `json.dump` views the whole warnings store. -/
def storeToJson (s : Store) : Json :=
  .obj (storeEntriesToJson s)

def recOfJson : Json → Option WRecord
  | .obj [("reason", .str a), ("mod_id", .str b),
          ("mod_tag", .str c), ("timestamp", .str d)] => some ⟨a, b, c, d⟩
  | _ => none

def recsOfJson : List Json → Option (List WRecord)
  | [] => some []
  | j :: rest =>
    match recOfJson j, recsOfJson rest with
    | some r, some rs => some (r :: rs)
    | _, _ => none

def storeEntriesOfJson : List (String × Json) → Option Store
  | [] => some ([] : Store)
  | (k, .arr js) :: rest =>
    match recsOfJson js, storeEntriesOfJson rest with
    | some v, some s => some ((k, v) :: s)
    | _, _ => none
  | _ => none

/-- Reading a store back out of a JSON document (`json.load` followed
by the dict shape the callers rely on). -/
def storeOfJson : Json → Option Store
  | .obj kvs => storeEntriesOfJson kvs
  | _ => none

/-- The warnings file on disk: absent, unparsable text, or a
well-formed JSON document. -/
inductive DiskFile where
  | missing
  | corrupt
  | doc (j : Json)

/-- `save_json` (both sources, lines 94-99): overwrite the file with
the serialized store; a write failure is caught and logged, leaving
the previous contents. -/
def save_json (file : DiskFile) (data : Store) (writeOk : Bool) : DiskFile :=
  if writeOk then .doc (storeToJson data) else file

/-- `load_json` (both sources, lines 85-91): parse the file; a missing
file or a parse failure degrades to the empty store.  (A well-formed
document that is not store-shaped also maps to the empty store; the
program only ever writes store-shaped documents.) -/
def load_json : DiskFile → Store
  | .missing => []
  | .corrupt => []
  | .doc j => (storeOfJson j).getD []

/-- The key list of a store (a Python dict's keys, in order). -/
def storeKeys (st : Store) : List String :=
  (st : List (String × List WRecord)).map Prod.fst

/-! ## Store lemmas -/

theorem storeGet_warnAppend_self (st : Store) (k : String) (r : WRecord) :
    storeGet (warnAppend st k r) k
      = some (((storeGet st k).getD []) ++ [r]) := by
  induction st with
  | nil => simp [warnAppend, storeGet]
  | cons p rest ih =>
    obtain ⟨k', v⟩ := p
    by_cases h : k' = k
    · simp [warnAppend, storeGet, h]
    · simp [warnAppend, storeGet, h, ih]

theorem storeGet_eq_none_of_not_mem_keys (st : Store) (k : String)
    (h : k ∉ storeKeys st) : storeGet st k = none := by
  induction st with
  | nil => simp [storeGet]
  | cons p rest ih =>
    obtain ⟨k', v⟩ := p
    simp only [storeKeys, List.map_cons, List.mem_cons, not_or] at h
    have hne : ¬ k' = k := fun hh => h.1 hh.symm
    simp only [storeGet, if_neg hne]
    exact ih (by simpa [storeKeys] using h.2)

theorem not_mem_keys_storeDelete (st : Store) (k : String)
    (hnd : (storeKeys st).Nodup) : k ∉ storeKeys (storeDelete st k) := by
  induction st with
  | nil => simp [storeDelete, storeKeys]
  | cons p rest ih =>
    obtain ⟨k', v⟩ := p
    simp only [storeKeys, List.map_cons, List.nodup_cons] at hnd
    by_cases h : k' = k
    · subst h
      simpa [storeDelete, storeKeys] using hnd.1
    · simp only [storeDelete, if_neg h, storeKeys, List.map_cons,
        List.mem_cons]
      push_neg
      exact ⟨fun hh => h hh.symm, by simpa [storeKeys] using ih hnd.2⟩

theorem storeGet_storeDelete_self (st : Store) (k : String)
    (hnd : (storeKeys st).Nodup) :
    storeGet (storeDelete st k) k = none :=
  storeGet_eq_none_of_not_mem_keys _ _ (not_mem_keys_storeDelete st k hnd)

/-! ## C1 -/

theorem warnSeq_spec (env : Env) (gid : String) (author member : Member)
    (hbot : member.isBot = false) (calls : List (String × String))
    (st : Store) :
    (warnSeq env (some gid) author member st calls).2
      = (List.range'
          (((storeGet st (warning_key gid member.id)).getD []).length + 1)
          calls.length).map some
    ∧ (storeGet (warnSeq env (some gid) author member st calls).1
        (warning_key gid member.id)).getD []
      = ((storeGet st (warning_key gid member.id)).getD [])
          ++ calls.map (mkWRecord author) := by
  induction calls generalizing st with
  | nil => simp [warnSeq]
  | cons c rest ih =>
    have happ := storeGet_warnAppend_self st (warning_key gid member.id)
      (mkWRecord author c)
    simp only [mkWRecord] at happ
    obtain ⟨ih1, ih2⟩ :=
      ih (warnAppend st (warning_key gid member.id) (mkWRecord author c))
    simp only [mkWRecord] at ih1 ih2
    constructor
    · simp only [warnSeq, discordWarn, hbot, Bool.false_eq_true, if_false,
        List.length_cons, List.range'_succ, List.map_cons]
      rw [happ] at ih1 ⊢
      rw [ih1]
      simp
    · simp only [warnSeq, discordWarn, hbot, Bool.false_eq_true, if_false,
        List.map_cons]
      rw [ih2, happ]
      simp [mkWRecord]

/-- C1: starting from any store state in which the `(guild, user)` key
is absent, a sequence of k successful `warn` invocations on that key
reports totals 1, 2, ..., k — the j-th call reports j, the length of
the stored list after its append — and the `warnings` view command
then lists exactly those k records in insertion order with 1-based
numbering. -/
theorem c1_warn_totals_and_view (env : Env) (gid : String)
    (author member : Member) (st : Store) (calls : List (String × String))
    (hbot : member.isBot = false)
    (habs : storeGet st (warning_key gid member.id) = none) :
    (warnSeq env (some gid) author member st calls).2
      = (List.range' 1 calls.length).map some
    ∧ discordViewList (warnSeq env (some gid) author member st calls).1
        gid member.id
      = (List.range' 1 calls.length).zip (calls.map (mkWRecord author)) := by
  obtain ⟨h1, h2⟩ := warnSeq_spec env gid author member hbot calls st
  rw [habs] at h1 h2
  simp only [Option.getD_none, List.length_nil, List.nil_append,
    Nat.zero_add] at h1 h2
  refine ⟨h1, ?_⟩
  simp [discordViewList, h2]

/-- Witness for C1: two warns on a fresh key report totals 1 then 2,
and the view lists both records numbered 1 and 2. -/
theorem c1_warn_totals_and_view_witness :
    ((⟨"u2", "User#2", false, []⟩ : Member).isBot = false
      ∧ storeGet ([] : Store) (warning_key "g1" "u2") = none)
    ∧ ((warnSeq {} (some "g1") ⟨"m1", "Mod#1", false, []⟩
          ⟨"u2", "User#2", false, []⟩ [] [("spam", "t1"), ("flood", "t2")]).2
        = (List.range' 1
            ([("spam", "t1"), ("flood", "t2")] : List (String × String)).length).map
            some
      ∧ discordViewList
          (warnSeq {} (some "g1") ⟨"m1", "Mod#1", false, []⟩
            ⟨"u2", "User#2", false, []⟩ [] [("spam", "t1"), ("flood", "t2")]).1
          "g1" "u2"
        = (List.range' 1
            ([("spam", "t1"), ("flood", "t2")] : List (String × String)).length).zip
            ([("spam", "t1"), ("flood", "t2")].map
              (mkWRecord ⟨"m1", "Mod#1", false, []⟩))) :=
  ⟨⟨rfl, rfl⟩,
   c1_warn_totals_and_view {} "g1" ⟨"m1", "Mod#1", false, []⟩
     ⟨"u2", "User#2", false, []⟩ [] [("spam", "t1"), ("flood", "t2")] rfl rfl⟩

/-- C6: `clear_warnings` on a key with no stored warnings reports
"has no warnings to clear" and leaves the store untouched; on a
present key it removes the key entirely — afterwards the lookup is
`none`, the key is absent from the store's key list (so the store
never holds the key bound to an empty list), and the warnings view
shows no entries.  Proved for the discord variant (conjuncts 1-2) and
for the stoat variant after its parse/fetch preamble (conjuncts 3-4). -/
theorem c6_clear_warnings_both_variants :
    (∀ (st : Store) (gid : String) (author member : Member),
      storeGet st (warning_key gid member.id) = none →
      discordClearWarnings st (some gid) author member
        = (st, [.userMsg (mention member.id ++ " has no warnings to clear."),
                .audit ⟨"clear_warnings  target=" ++ member.id, some gid,
                        some author.id⟩]))
    ∧ (∀ (st : Store) (gid : String) (author member : Member)
        (l : List WRecord),
      (storeKeys st).Nodup →
      storeGet st (warning_key gid member.id) = some l →
      storeGet (discordClearWarnings st (some gid) author member).1
        (warning_key gid member.id) = none
      ∧ warning_key gid member.id
          ∉ storeKeys (discordClearWarnings st (some gid) author member).1
      ∧ discordViewList (discordClearWarnings st (some gid) author member).1
          gid member.id = [])
    ∧ (∀ (env : StoatEnv) (st : Store) (authorId : String)
        (msid : Option String) (user_arg uid : String),
      parse_user_id user_arg = some uid →
      env.userExists uid = true →
      storeGet st (warning_key (get_server_id msid) uid) = none →
      stoatClearWarnings env st authorId msid user_arg
        = (st, [.userMsg (mention uid ++ " has no warnings to clear."),
                .audit ⟨"clear_warnings  target=" ++ uid,
                        some (get_server_id msid), some authorId⟩]))
    ∧ (∀ (env : StoatEnv) (st : Store) (authorId : String)
        (msid : Option String) (user_arg uid : String) (l : List WRecord),
      parse_user_id user_arg = some uid →
      env.userExists uid = true →
      (storeKeys st).Nodup →
      storeGet st (warning_key (get_server_id msid) uid) = some l →
      storeGet (stoatClearWarnings env st authorId msid user_arg).1
        (warning_key (get_server_id msid) uid) = none
      ∧ warning_key (get_server_id msid) uid
          ∉ storeKeys (stoatClearWarnings env st authorId msid user_arg).1
      ∧ stoatViewList (stoatClearWarnings env st authorId msid user_arg).1
          msid uid = []) := by
  refine ⟨?abs, ?del, ?sabs, ?sdel⟩
  · intro st gid author member habs
    simp [discordClearWarnings, habs]
  · intro st gid author member l hnd hsome
    have hres : (discordClearWarnings st (some gid) author member).1
        = storeDelete st (warning_key gid member.id) := by
      simp [discordClearWarnings, hsome]
    rw [hres]
    have hnone := storeGet_storeDelete_self st (warning_key gid member.id) hnd
    exact ⟨hnone, not_mem_keys_storeDelete st _ hnd,
      by simp [discordViewList, hnone]⟩
  · intro env st authorId msid user_arg uid hp hu habs
    unfold stoatClearWarnings
    rw [hp]
    simp [hu, habs]
  · intro env st authorId msid user_arg uid l hp hu hnd hsome
    have hres : (stoatClearWarnings env st authorId msid user_arg).1
        = storeDelete st (warning_key (get_server_id msid) uid) := by
      unfold stoatClearWarnings
      rw [hp]
      simp [hu, hsome]
    rw [hres]
    have hnone := storeGet_storeDelete_self st
      (warning_key (get_server_id msid) uid) hnd
    exact ⟨hnone, not_mem_keys_storeDelete st _ hnd,
      by simp [stoatViewList, hnone]⟩

/-- Witness for C6: a fresh key reports nothing to clear with the
store unchanged; clearing a key holding one warning removes the key
entirely in both variants. -/
theorem c6_clear_warnings_both_variants_witness :
    (discordClearWarnings [] (some "g1") ⟨"m1", "Mod", false, []⟩
        ⟨"u2", "U", false, []⟩
      = ([], [.userMsg (mention "u2" ++ " has no warnings to clear."),
              .audit ⟨"clear_warnings  target=" ++ "u2", some "g1",
                      some "m1"⟩]))
    ∧ (storeGet
        (discordClearWarnings [(warning_key "g1" "u2", [⟨"r", "m1", "Mod", "t"⟩])]
          (some "g1") ⟨"m1", "Mod", false, []⟩ ⟨"u2", "U", false, []⟩).1
        (warning_key "g1" "u2") = none
      ∧ warning_key "g1" "u2"
          ∉ storeKeys (discordClearWarnings
              [(warning_key "g1" "u2", [⟨"r", "m1", "Mod", "t"⟩])]
              (some "g1") ⟨"m1", "Mod", false, []⟩ ⟨"u2", "U", false, []⟩).1
      ∧ discordViewList (discordClearWarnings
            [(warning_key "g1" "u2", [⟨"r", "m1", "Mod", "t"⟩])]
            (some "g1") ⟨"m1", "Mod", false, []⟩ ⟨"u2", "U", false, []⟩).1
          "g1" "u2" = [])
    ∧ (storeGet
        (stoatClearWarnings {} [(warning_key (get_server_id none) "u7",
            [⟨"r", "m1", "Mod", "t"⟩])] "m1" none "u7").1
        (warning_key (get_server_id none) "u7") = none
      ∧ warning_key (get_server_id none) "u7"
          ∉ storeKeys (stoatClearWarnings {}
              [(warning_key (get_server_id none) "u7", [⟨"r", "m1", "Mod", "t"⟩])]
              "m1" none "u7").1
      ∧ stoatViewList (stoatClearWarnings {}
            [(warning_key (get_server_id none) "u7", [⟨"r", "m1", "Mod", "t"⟩])]
            "m1" none "u7").1 none "u7" = []) :=
  ⟨c6_clear_warnings_both_variants.1 [] "g1" ⟨"m1", "Mod", false, []⟩
      ⟨"u2", "U", false, []⟩ rfl,
   c6_clear_warnings_both_variants.2.1
      [(warning_key "g1" "u2", [⟨"r", "m1", "Mod", "t"⟩])] "g1"
      ⟨"m1", "Mod", false, []⟩ ⟨"u2", "U", false, []⟩ [⟨"r", "m1", "Mod", "t"⟩]
      (by simp [storeKeys]) (by decide),
   c6_clear_warnings_both_variants.2.2.2 {}
      [(warning_key (get_server_id none) "u7", [⟨"r", "m1", "Mod", "t"⟩])]
      "m1" none "u7" "u7" [⟨"r", "m1", "Mod", "t"⟩]
      (by decide) rfl (by simp [storeKeys]) (by decide)⟩

/-! ## C9 -/

theorem recOfJson_recToJson (r : WRecord) : recOfJson (recToJson r) = some r := by
  cases r
  rfl

theorem recsOfJson_map_recToJson (l : List WRecord) :
    recsOfJson (l.map recToJson) = some l := by
  induction l with
  | nil => rfl
  | cons r rest ih => simp [recsOfJson, recOfJson_recToJson, ih]

theorem storeEntriesOfJson_toJson (s : Store) :
    storeEntriesOfJson (storeEntriesToJson s) = some s := by
  induction s with
  | nil => rfl
  | cons p rest ih =>
    obtain ⟨k, v⟩ := p
    simp [storeEntriesToJson, storeEntriesOfJson, recsOfJson_map_recToJson, ih]

/-- C9: for every store value — any number of keys, any record
contents including unicode reason text (`String` is unicode) — writing
it with `save_json` and reloading with `load_json` yields a value
deeply equal to the in-memory store at save time.  (`writeOk = true`
is the non-exception path of `save_json`; a failed write is caught and
leaves the old file, per §4.1's best-effort durability.) -/
theorem c9_save_load_roundtrip (st : Store) (file : DiskFile) :
    load_json (save_json file st true) = st := by
  simp [save_json, load_json, storeToJson, storeOfJson,
    storeEntriesOfJson_toJson]

/-! ## C2 -/

/-- C2: a command invocation that the authorization gate denies leaves
the warnings store, the config store and the audit log unchanged —
whatever the command body would have done — and emits exactly one
user-visible denial message: the framework skips the body on a failed
`is_admin` check and `on_command_error` handles the resulting
`CheckFailure` with a single send. -/
theorem c2_denied_zero_side_effects (adminIds : List String)
    (actorId : String) (body : BotState → BotState × List Effect)
    (s : BotState) (hdenied : is_admin_pred adminIds actorId = false) :
    stoatDispatch adminIds true actorId body s
      = (s, [.userMsg "You don't have permission to use that command."])
    ∧ (stoatDispatch adminIds true actorId body s).1.warnings = s.warnings
    ∧ (stoatDispatch adminIds true actorId body s).1.config = s.config
    ∧ (stoatDispatch adminIds true actorId body s).1.auditLog = s.auditLog
    ∧ msgsOf (stoatDispatch adminIds true actorId body s).2
      = ["You don't have permission to use that command."]
    ∧ auditOf (stoatDispatch adminIds true actorId body s).2 = [] := by
  have h : stoatDispatch adminIds true actorId body s
      = (s, on_command_error .checkFailure) := by
    simp [stoatDispatch, hdenied]
  rw [h]
  simp [on_command_error, msgsOf, auditOf]

/-- Witness for C2: an actor outside the admin list invokes a command
whose body would wipe the warnings store; the dispatch leaves the
state untouched and sends only the denial. -/
theorem c2_denied_zero_side_effects_witness :
    is_admin_pred ["a1"] "b2" = false
    ∧ stoatDispatch ["a1"] true "b2"
        (fun _ => (⟨[], [], []⟩, [.userMsg "wiped"]))
        ⟨[(warning_key "g1" "u2", [⟨"r", "a1", "A", "t"⟩])], [], []⟩
      = (⟨[(warning_key "g1" "u2", [⟨"r", "a1", "A", "t"⟩])], [], []⟩,
         [.userMsg "You don't have permission to use that command."]) :=
  ⟨by decide,
   (c2_denied_zero_side_effects ["a1"] "b2"
      (fun _ => (⟨[], [], []⟩, [.userMsg "wiped"]))
      ⟨[(warning_key "g1" "u2", [⟨"r", "a1", "A", "t"⟩])], [], []⟩
      (by decide)).1⟩

/-! ## C10 -/

/-- C10: in the stoat variant, `warn` invoked outside any server is
not rejected: `get_server_id` yields the sentinel `"DM"`, the record
is stored under the synthetic key `"DM:<user_id>"` (full success
trace, no rejection message), the `warnings` view in the same DM
context lists it, and `clear_warnings` in the same DM context finds
and deletes that key. -/
theorem c10_dm_scope_warnings (env : StoatEnv) (st : Store)
    (authorId authorTag : String) (user_arg uid reason now : String)
    (hp : parse_user_id user_arg = some uid)
    (hu : env.userExists uid = true)
    (habs : storeGet st (warning_key "DM" uid) = none) :
    get_server_id none = "DM"
    ∧ warning_key "DM" uid = "DM:" ++ uid
    ∧ (stoatWarn env st authorId authorTag none user_arg reason now).store
        = warnAppend st (warning_key "DM" uid) ⟨reason, authorId, authorTag, now⟩
    ∧ (stoatWarn env st authorId authorTag none user_arg reason now).trace
        = [.storeAppend (warning_key "DM" uid), .saveWarnings,
           .dmAttempt env.dmOk,
           .userMsg (mention uid ++ " warned.  Reason: " ++ reason
                     ++ "  (Total: " ++ toString 1 ++ ")"),
           .audit ⟨"warn  target=" ++ uid ++ "  reason=" ++ reason,
                   some "DM", some authorId⟩,
           .logPost]
    ∧ storeGet (stoatWarn env st authorId authorTag none user_arg reason now).store
        (warning_key "DM" uid) = some [⟨reason, authorId, authorTag, now⟩]
    ∧ stoatViewList (stoatWarn env st authorId authorTag none user_arg reason now).store
        none uid = [(1, ⟨reason, authorId, authorTag, now⟩)]
    ∧ (stoatClearWarnings env
        (stoatWarn env st authorId authorTag none user_arg reason now).store
        authorId none user_arg).2
      = [.storeDeleteKey (warning_key "DM" uid), .saveWarnings,
         .userMsg ("All warnings cleared for " ++ mention uid ++ "."),
         .audit ⟨"clear_warnings  target=" ++ uid, some "DM", some authorId⟩] := by
  have hget : storeGet
      (warnAppend st (warning_key "DM" uid) ⟨reason, authorId, authorTag, now⟩)
      (warning_key "DM" uid) = some [⟨reason, authorId, authorTag, now⟩] := by
    rw [storeGet_warnAppend_self, habs]
    rfl
  have hw : stoatWarn env st authorId authorTag none user_arg reason now
      = ⟨warnAppend st (warning_key "DM" uid) ⟨reason, authorId, authorTag, now⟩,
         some 1,
         [.storeAppend (warning_key "DM" uid), .saveWarnings,
          .dmAttempt env.dmOk,
          .userMsg (mention uid ++ " warned.  Reason: " ++ reason
                    ++ "  (Total: " ++ toString 1 ++ ")"),
          .audit ⟨"warn  target=" ++ uid ++ "  reason=" ++ reason,
                  some "DM", some authorId⟩,
          .logPost]⟩ := by
    unfold stoatWarn
    rw [hp]
    simp [hu, get_server_id, hget]
  refine ⟨rfl, rfl, by rw [hw], by rw [hw], ?_, ?_, ?_⟩
  · rw [hw]
    exact hget
  · rw [hw]
    simp [stoatViewList, get_server_id, hget]
  · rw [hw]
    unfold stoatClearWarnings
    rw [hp]
    simp [hu, get_server_id, hget]

/-- Witness for C10: warning user `u7` from a DM stores the record
under `"DM:u7"` and the DM-context view shows it numbered 1. -/
theorem c10_dm_scope_warnings_witness :
    (parse_user_id "u7" = some "u7"
      ∧ storeGet ([] : Store) (warning_key "DM" "u7") = none)
    ∧ (get_server_id none = "DM"
      ∧ warning_key "DM" "u7" = "DM:" ++ "u7"
      ∧ (stoatWarn {} [] "m1" "Mod" none "u7" "spam" "t1").store
          = warnAppend [] (warning_key "DM" "u7") ⟨"spam", "m1", "Mod", "t1"⟩
      ∧ (stoatWarn {} [] "m1" "Mod" none "u7" "spam" "t1").trace
          = [.storeAppend (warning_key "DM" "u7"), .saveWarnings,
             .dmAttempt true,
             .userMsg (mention "u7" ++ " warned.  Reason: " ++ "spam"
                       ++ "  (Total: " ++ toString 1 ++ ")"),
             .audit ⟨"warn  target=" ++ "u7" ++ "  reason=" ++ "spam",
                     some "DM", some "m1"⟩,
             .logPost]
      ∧ storeGet (stoatWarn {} [] "m1" "Mod" none "u7" "spam" "t1").store
          (warning_key "DM" "u7") = some [⟨"spam", "m1", "Mod", "t1"⟩]
      ∧ stoatViewList (stoatWarn {} [] "m1" "Mod" none "u7" "spam" "t1").store
          none "u7" = [(1, ⟨"spam", "m1", "Mod", "t1"⟩)]
      ∧ (stoatClearWarnings {} (stoatWarn {} [] "m1" "Mod" none "u7" "spam" "t1").store
          "m1" none "u7").2
        = [.storeDeleteKey (warning_key "DM" "u7"), .saveWarnings,
           .userMsg ("All warnings cleared for " ++ mention "u7" ++ "."),
           .audit ⟨"clear_warnings  target=" ++ "u7", some "DM", some "m1"⟩]) :=
  ⟨⟨by decide, rfl⟩,
   c10_dm_scope_warnings {} [] "m1" "Mod" "u7" "u7" "spam" "t1"
     (by decide) rfl rfl⟩

/-! ## C3 -/

/-- C3: whenever target resolution fails — `parse_user_id` returns
`None`, or the platform member fetch fails — the stoat moderation
commands terminate with exactly one resolution-error message and
nothing else: no platform mutation, no store write, no audit entry.
Conjuncts: parse failure for kick/ban/unban/mute/unmute, then member
fetch failure for kick/ban/mute/unmute (the guards that precede the
fetch are assumed passed). -/
theorem c3_resolution_failure_never_mutates :
    (∀ (env : StoatEnv) (authorId : String) (msid : Option String)
        (arg reason : String), parse_user_id arg = none →
      stoatKick env authorId msid arg reason = [.userMsg invalidUserMsg])
    ∧ (∀ (env : StoatEnv) (authorId : String) (msid : Option String)
        (arg reason : String), parse_user_id arg = none →
      stoatBan env authorId msid arg reason = [.userMsg invalidUserMsg])
    ∧ (∀ (env : StoatEnv) (authorId : String) (msid : Option String)
        (arg : String), parse_user_id arg = none →
      stoatUnban env authorId msid arg = [.userMsg invalidUserMsg])
    ∧ (∀ (env : StoatEnv) (cs : CfgStore) (authorId : String)
        (msid : Option String) (arg reason : String),
      parse_user_id arg = none →
      stoatMute env cs authorId msid arg reason = [.userMsg invalidUserMsg])
    ∧ (∀ (env : StoatEnv) (cs : CfgStore) (authorId : String)
        (msid : Option String) (arg : String), parse_user_id arg = none →
      stoatUnmute env cs authorId msid arg = [.userMsg invalidUserMsg])
    ∧ (∀ (env : StoatEnv) (authorId : String) (msid : Option String)
        (arg uid reason : String), parse_user_id arg = some uid →
      uid ≠ authorId → get_server_id msid ≠ "DM" →
      env.memberExists (get_server_id msid) uid = false →
      stoatKick env authorId msid arg reason = [.userMsg (memberNotFoundMsg uid)])
    ∧ (∀ (env : StoatEnv) (authorId : String) (msid : Option String)
        (arg uid reason : String), parse_user_id arg = some uid →
      uid ≠ authorId → get_server_id msid ≠ "DM" →
      env.memberExists (get_server_id msid) uid = false →
      stoatBan env authorId msid arg reason = [.userMsg (memberNotFoundMsg uid)])
    ∧ (∀ (env : StoatEnv) (cs : CfgStore) (authorId : String)
        (msid : Option String) (arg uid reason mrid : String),
      parse_user_id arg = some uid → get_server_id msid ≠ "DM" →
      (cfgGet cs (get_server_id msid)).mute_role_id = some mrid →
      env.memberExists (get_server_id msid) uid = false →
      stoatMute env cs authorId msid arg reason
        = [.userMsg (memberNotFoundMsg uid)])
    ∧ (∀ (env : StoatEnv) (cs : CfgStore) (authorId : String)
        (msid : Option String) (arg uid mrid : String),
      parse_user_id arg = some uid → get_server_id msid ≠ "DM" →
      (cfgGet cs (get_server_id msid)).mute_role_id = some mrid →
      env.memberExists (get_server_id msid) uid = false →
      stoatUnmute env cs authorId msid arg
        = [.userMsg (memberNotFoundMsg uid)]) := by
  refine ⟨?k0, ?b0, ?u0, ?m0, ?n0, ?k1, ?b1, ?m1, ?n1⟩
  · intro env authorId msid arg reason hp
    unfold stoatKick
    rw [hp]
  · intro env authorId msid arg reason hp
    unfold stoatBan
    rw [hp]
  · intro env authorId msid arg hp
    unfold stoatUnban
    rw [hp]
  · intro env cs authorId msid arg reason hp
    unfold stoatMute
    rw [hp]
  · intro env cs authorId msid arg hp
    unfold stoatUnmute
    rw [hp]
  · intro env authorId msid arg uid reason hp hself hdm hmem
    unfold stoatKick
    rw [hp]
    simp [hself, hdm, hmem]
  · intro env authorId msid arg uid reason hp hself hdm hmem
    unfold stoatBan
    rw [hp]
    simp [hself, hdm, hmem]
  · intro env cs authorId msid arg uid reason mrid hp hdm hcfg hmem
    unfold stoatMute
    rw [hp]
    simp [hdm, hcfg, hmem]
  · intro env cs authorId msid arg uid mrid hp hdm hcfg hmem
    unfold stoatUnmute
    rw [hp]
    simp [hdm, hcfg, hmem]

/-- Witness for C3: an all-whitespace identifier aborts `kick` with
the invalid-user message, and a syntactically valid but unknown member
aborts it with the not-found message; neither trace holds a platform
call. -/
theorem c3_resolution_failure_never_mutates_witness :
    (parse_user_id "  " = none
      ∧ stoatKick {} "m1" (some "g1") "  " "r" = [.userMsg invalidUserMsg])
    ∧ (parse_user_id "u9" = some "u9"
      ∧ stoatKick { memberExists := fun _ _ => false } "m1" (some "g1") "u9" "r"
          = [.userMsg (memberNotFoundMsg "u9")]) :=
  ⟨⟨by decide,
    c3_resolution_failure_never_mutates.1 {} "m1" (some "g1") "  " "r" (by decide)⟩,
   ⟨by decide,
    c3_resolution_failure_never_mutates.2.2.2.2.2.1
      { memberExists := fun _ _ => false } "m1" (some "g1") "u9" "u9" "r"
      (by decide) (by decide) (by decide) rfl⟩⟩

/-! ## C8 -/

/-- C8: `mute` in a guild with no configured `mute_role_id` terminates
with the "No muted role configured" message and no platform
role-mutation; `mute` on a target already holding the mute role and
`unmute` on a target not holding it each terminate with their specific
error before any platform mutation.  Conjuncts 1-3: discord variant;
conjuncts 4-6: stoat variant (after its parse/server guards). -/
theorem c8_mute_unmute_guards :
    (∀ (env : Env) (cs : CfgStore) (gid : String) (a m : Member)
        (r : String), (cfgGet cs gid).mute_role_id = none →
      discordMute env cs (some gid) a m r
        = [.userMsg "No muted role configured.  Use /set_mute_role first."])
    ∧ (∀ (env : Env) (cs : CfgStore) (gid : String) (a m : Member)
        (r rid : String), (cfgGet cs gid).mute_role_id = some rid →
      env.roleExists gid rid = true → rid ∈ m.roleIds →
      discordMute env cs (some gid) a m r
        = [.userMsg (mention m.id ++ " is already muted.")])
    ∧ (∀ (env : Env) (cs : CfgStore) (gid : String) (a m : Member)
        (rid : String), (cfgGet cs gid).mute_role_id = some rid →
      rid ∉ m.roleIds →
      discordUnmute env cs (some gid) a m
        = [.userMsg (mention m.id ++ " is not currently muted.")])
    ∧ (∀ (env : StoatEnv) (cs : CfgStore) (authorId : String)
        (msid : Option String) (arg uid reason : String),
      parse_user_id arg = some uid → get_server_id msid ≠ "DM" →
      (cfgGet cs (get_server_id msid)).mute_role_id = none →
      stoatMute env cs authorId msid arg reason
        = [.userMsg "No mute role configured. Use set_mute_role first."])
    ∧ (∀ (env : StoatEnv) (cs : CfgStore) (authorId : String)
        (msid : Option String) (arg uid reason mrid : String),
      parse_user_id arg = some uid → get_server_id msid ≠ "DM" →
      (cfgGet cs (get_server_id msid)).mute_role_id = some mrid →
      env.memberExists (get_server_id msid) uid = true →
      mrid ∈ env.memberRoles (get_server_id msid) uid →
      stoatMute env cs authorId msid arg reason
        = [.userMsg "That member is already muted."])
    ∧ (∀ (env : StoatEnv) (cs : CfgStore) (authorId : String)
        (msid : Option String) (arg uid mrid : String),
      parse_user_id arg = some uid → get_server_id msid ≠ "DM" →
      (cfgGet cs (get_server_id msid)).mute_role_id = some mrid →
      env.memberExists (get_server_id msid) uid = true →
      mrid ∉ env.memberRoles (get_server_id msid) uid →
      stoatUnmute env cs authorId msid arg
        = [.userMsg "That member is not muted."]) := by
  refine ⟨?d1, ?d2, ?d3, ?s1, ?s2, ?s3⟩
  · intro env cs gid a m r hcfg
    simp [discordMute, hcfg]
  · intro env cs gid a m r rid hcfg hex hmem
    simp [discordMute, hcfg, hex, hmem]
  · intro env cs gid a m rid hcfg hmem
    simp only [discordUnmute, hcfg]
    rw [if_pos (Or.inr hmem)]
  · intro env cs authorId msid arg uid reason hp hdm hcfg
    unfold stoatMute
    rw [hp]
    simp [hdm, hcfg]
  · intro env cs authorId msid arg uid reason mrid hp hdm hcfg hfm hmem
    unfold stoatMute
    rw [hp]
    simp [hdm, hcfg, hfm, hmem]
  · intro env cs authorId msid arg uid mrid hp hdm hcfg hfm hmem
    unfold stoatUnmute
    rw [hp]
    simp [hdm, hcfg, hfm, hmem]

/-- Witness for C8: with an empty config, muting `u2` in guild `g1`
reports the missing mute role; with role `mr` configured, muting a
member already holding `mr` and unmuting one not holding it report
their specific errors — no platform call in any trace. -/
theorem c8_mute_unmute_guards_witness :
    (cfgGet [] "g1").mute_role_id = none
    ∧ discordMute {} [] (some "g1") ⟨"m1", "Mod", false, []⟩
        ⟨"u2", "U", false, []⟩ "r"
      = [.userMsg "No muted role configured.  Use /set_mute_role first."]
    ∧ discordMute {} [("g1", { mute_role_id := some "mr" })] (some "g1")
        ⟨"m1", "Mod", false, []⟩ ⟨"u2", "U", false, ["mr"]⟩ "r"
      = [.userMsg (mention "u2" ++ " is already muted.")]
    ∧ discordUnmute {} [("g1", { mute_role_id := some "mr" })] (some "g1")
        ⟨"m1", "Mod", false, []⟩ ⟨"u2", "U", false, []⟩
      = [.userMsg (mention "u2" ++ " is not currently muted.")]
    ∧ stoatMute {} [] "m1" (some "g1") "u2" "r"
      = [.userMsg "No mute role configured. Use set_mute_role first."] :=
  ⟨rfl,
   c8_mute_unmute_guards.1 {} [] "g1" ⟨"m1", "Mod", false, []⟩
     ⟨"u2", "U", false, []⟩ "r" rfl,
   c8_mute_unmute_guards.2.1 {} [("g1", { mute_role_id := some "mr" })] "g1"
     ⟨"m1", "Mod", false, []⟩ ⟨"u2", "U", false, ["mr"]⟩ "r" "mr"
     (by decide) rfl (by decide),
   c8_mute_unmute_guards.2.2.1 {} [("g1", { mute_role_id := some "mr" })] "g1"
     ⟨"m1", "Mod", false, []⟩ ⟨"u2", "U", false, []⟩ "mr" (by decide)
     (by decide),
   c8_mute_unmute_guards.2.2.2.1 {} [] "m1" (some "g1") "u2" "u2" "r"
     (by decide) (by decide) rfl⟩

/-! ## C5 -/

/-- C5 counterexample: in the successful `warn` path the claim's
ordering fails — the warnings-store append (the mutating step,
followed by the save) happens at trace index 0, strictly before the
best-effort DM attempt at index 2; so the DM is not attempted before
the mutating call for `warn` (lines 443-456 of discord-bot.py append
and save before `member.send`). -/
theorem c5_counterexample_warn_mutates_before_dm :
    (discordWarn {} [] (some "g1") ⟨"m1", "Mod", false, []⟩
        ⟨"u2", "U", false, []⟩ "spam" "t1").trace.findIdx
        Effect.isStoreAppend = 0
    ∧ (discordWarn {} [] (some "g1") ⟨"m1", "Mod", false, []⟩
        ⟨"u2", "U", false, []⟩ "spam" "t1").trace.findIdx
        Effect.isDmAttempt = 2
    ∧ ¬ ((discordWarn {} [] (some "g1") ⟨"m1", "Mod", false, []⟩
          ⟨"u2", "U", false, []⟩ "spam" "t1").trace.findIdx Effect.isDmAttempt
        < (discordWarn {} [] (some "g1") ⟨"m1", "Mod", false, []⟩
          ⟨"u2", "U", false, []⟩ "spam" "t1").trace.findIdx
          Effect.isStoreAppend) := by
  decide

/-- C5 amended: for `kick` and `ban` the best-effort DM is attempted
strictly before the platform mutation (trace positions 0 and 1); for
`warn` the store append and save precede the DM attempt (positions
0-2); and in all three a DM failure is swallowed — flipping the DM
outcome changes no user message, no audit entry, and (for warn) no
store content or reported total. -/
theorem c5_dm_order_amended :
    (∀ (env : Env) (gid : String) (a m : Member) (r : String), m ≠ a →
      (discordKick env (some gid) a m r).take 2
        = [.dmAttempt env.dmOk, .platformKick m.id env.kickOk])
    ∧ (∀ (env : Env) (gid : String) (a m : Member) (r : String) (d : Int),
        m ≠ a →
      (discordBan env (some gid) a m r d).take 2
        = [.dmAttempt env.dmOk, .platformBan m.id (max 0 (min 7 d)) env.banOk])
    ∧ (∀ (env : Env) (st : Store) (gid : String) (a m : Member) (r now : String),
        m.isBot = false →
      (discordWarn env st (some gid) a m r now).trace.take 3
        = [.storeAppend (warning_key gid m.id), .saveWarnings,
           .dmAttempt env.dmOk])
    ∧ (∀ (env : Env) (b : Bool) (gid : String) (a m : Member) (r : String),
        m ≠ a →
      msgsOf (discordKick { env with dmOk := b } (some gid) a m r)
        = msgsOf (discordKick env (some gid) a m r)
      ∧ auditOf (discordKick { env with dmOk := b } (some gid) a m r)
        = auditOf (discordKick env (some gid) a m r))
    ∧ (∀ (env : Env) (b : Bool) (gid : String) (a m : Member) (r : String)
        (d : Int), m ≠ a →
      msgsOf (discordBan { env with dmOk := b } (some gid) a m r d)
        = msgsOf (discordBan env (some gid) a m r d)
      ∧ auditOf (discordBan { env with dmOk := b } (some gid) a m r d)
        = auditOf (discordBan env (some gid) a m r d))
    ∧ (∀ (env : Env) (b : Bool) (st : Store) (gid : String) (a m : Member)
        (r now : String), m.isBot = false →
      (discordWarn { env with dmOk := b } st (some gid) a m r now).store
        = (discordWarn env st (some gid) a m r now).store
      ∧ (discordWarn { env with dmOk := b } st (some gid) a m r now).reportedTotal
        = (discordWarn env st (some gid) a m r now).reportedTotal
      ∧ msgsOf (discordWarn { env with dmOk := b } st (some gid) a m r now).trace
        = msgsOf (discordWarn env st (some gid) a m r now).trace
      ∧ auditOf (discordWarn { env with dmOk := b } st (some gid) a m r now).trace
        = auditOf (discordWarn env st (some gid) a m r now).trace) := by
  refine ⟨?k, ?b, ?w, ?dk, ?db, ?dw⟩
  · intro env gid a m r hne
    by_cases hk : env.kickOk <;> simp [discordKick, hne, hk]
  · intro env gid a m r d hne
    by_cases hb : env.banOk <;> simp [discordBan, hne, hb]
  · intro env st gid a m r now hbot
    simp [discordWarn, hbot]
  · intro env b gid a m r hne
    by_cases hk : env.kickOk <;>
      simp [discordKick, hne, hk, msgsOf, auditOf]
  · intro env b gid a m r d hne
    by_cases hb : env.banOk <;>
      simp [discordBan, hne, hb, msgsOf, auditOf]
  · intro env b st gid a m r now hbot
    simp [discordWarn, hbot, msgsOf, auditOf]

/-- Witness for C5 (amended): with the DM send failing, `kick` still
attempts the DM first and then the platform kick, `warn` still appends
first, and the messages match the DM-succeeding run. -/
theorem c5_dm_order_amended_witness :
    ((⟨"u2", "U", false, []⟩ : Member) ≠ (⟨"m1", "Mod", false, []⟩ : Member)
      ∧ (⟨"u2", "U", false, []⟩ : Member).isBot = false)
    ∧ (discordKick { dmOk := false } (some "g1") ⟨"m1", "Mod", false, []⟩
        ⟨"u2", "U", false, []⟩ "r").take 2
      = [.dmAttempt false, .platformKick "u2" true]
    ∧ (discordWarn { dmOk := false } [] (some "g1") ⟨"m1", "Mod", false, []⟩
        ⟨"u2", "U", false, []⟩ "spam" "t1").trace.take 3
      = [.storeAppend (warning_key "g1" "u2"), .saveWarnings, .dmAttempt false]
    ∧ msgsOf (discordKick { ({} : Env) with dmOk := false } (some "g1")
        ⟨"m1", "Mod", false, []⟩ ⟨"u2", "U", false, []⟩ "r")
      = msgsOf (discordKick {} (some "g1") ⟨"m1", "Mod", false, []⟩
        ⟨"u2", "U", false, []⟩ "r") :=
  ⟨⟨by decide, rfl⟩,
   c5_dm_order_amended.1 { dmOk := false } "g1" ⟨"m1", "Mod", false, []⟩
     ⟨"u2", "U", false, []⟩ "r" (by decide),
   c5_dm_order_amended.2.2.1 { dmOk := false } [] "g1"
     ⟨"m1", "Mod", false, []⟩ ⟨"u2", "U", false, []⟩ "spam" "t1" rfl,
   (c5_dm_order_amended.2.2.2.1 {} false "g1" ⟨"m1", "Mod", false, []⟩
     ⟨"u2", "U", false, []⟩ "r" (by decide)).1⟩

/-! ## C4 -/

/-- C4 counterexample: the audit behaviour on a platform permission
denial is not uniform across action types.  A `slowmode` whose
`channel.edit` raises `Forbidden` still appends its audit entry
(the handler's `except` branch does not return before the audit line),
and that entry is identical to the one a fully successful `slowmode`
appends — the audit log records the denied action exactly as it
records a success, unlike `kick`, which appends nothing on the same
failure. -/
theorem c4_counterexample_slowmode_audit :
    auditOf (discordSlowmode { channelEditOk := false } (some "g1") true
        ⟨"m1", "Mod", false, []⟩ 5)
      = auditOf (discordSlowmode {} (some "g1") true
        ⟨"m1", "Mod", false, []⟩ 5)
    ∧ auditOf (discordSlowmode { channelEditOk := false } (some "g1") true
        ⟨"m1", "Mod", false, []⟩ 5) ≠ []
    ∧ msgsOf (discordSlowmode { channelEditOk := false } (some "g1") true
        ⟨"m1", "Mod", false, []⟩ 5)
      = ["I don't have permission to edit that channel."]
    ∧ auditOf (discordKick { kickOk := false } (some "g1")
        ⟨"m1", "Mod", false, []⟩ ⟨"u2", "U", false, []⟩ "r") = [] := by
  refine ⟨rfl, ?_, rfl, rfl⟩
  decide

/-- C4 amended: every platform permission denial is caught and turned
into the user-visible "I don't have permission ..." message and never
escalates (each trace below is total and contains no `unexpected`
effect), uniformly for kick, ban, mute, unmute, slowmode, lock and
unlock; but the audit differs by action: kick, ban and mute append no
audit entry on the denial, while unmute, slowmode, lock and unlock
still append their standard entry — the same entry the successful run
appends. -/
theorem c4_perm_denied_amended :
    (∀ (env : Env) (gid : String) (a m : Member) (r : String),
      env.kickOk = false → m ≠ a →
      discordKick env (some gid) a m r
        = [.dmAttempt env.dmOk, .platformKick m.id false,
           .userMsg "I don't have permission to kick that member."]
      ∧ auditOf (discordKick env (some gid) a m r) = [])
    ∧ (∀ (env : Env) (gid : String) (a m : Member) (r : String) (d : Int),
      env.banOk = false → m ≠ a →
      discordBan env (some gid) a m r d
        = [.dmAttempt env.dmOk, .platformBan m.id (max 0 (min 7 d)) false,
           .userMsg "I don't have permission to ban that member."]
      ∧ auditOf (discordBan env (some gid) a m r d) = [])
    ∧ (∀ (env : Env) (cs : CfgStore) (gid : String) (a m : Member)
        (r rid : String), env.addRolesOk = false →
      (cfgGet cs gid).mute_role_id = some rid →
      env.roleExists gid rid = true → rid ∉ m.roleIds →
      discordMute env cs (some gid) a m r
        = [.platformAddRole m.id rid false,
           .userMsg "I don't have permission to manage that member's roles."]
      ∧ auditOf (discordMute env cs (some gid) a m r) = [])
    ∧ (∀ (env env2 : Env) (cs : CfgStore) (gid : String) (a m : Member)
        (rid : String), env.removeRolesOk = false → env2.removeRolesOk = true →
      (cfgGet cs gid).mute_role_id = some rid →
      env.roleExists gid rid = true → env2.roleExists gid rid = true →
      rid ∈ m.roleIds →
      discordUnmute env cs (some gid) a m
        = [.platformRemoveRole m.id rid false,
           .userMsg "I don't have permission to manage that member's roles.",
           .audit ⟨"unmute  target=" ++ m.id, some gid, some a.id⟩]
      ∧ auditOf (discordUnmute env cs (some gid) a m)
          = auditOf (discordUnmute env2 cs (some gid) a m))
    ∧ (∀ (env env2 : Env) (gid : String) (a : Member) (s : Int),
      env.channelEditOk = false → env2.channelEditOk = true →
      discordSlowmode env (some gid) true a s
        = [.platformSlowmode s false,
           .userMsg "I don't have permission to edit that channel.",
           .audit ⟨"slowmode  seconds=" ++ toString s, some gid, some a.id⟩]
      ∧ auditOf (discordSlowmode env (some gid) true a s)
          = auditOf (discordSlowmode env2 (some gid) true a s))
    ∧ (∀ (env env2 : Env) (gid : String) (a : Member),
      env.setPermsOk = false → env2.setPermsOk = true →
      discordLock env (some gid) true a
        = [.platformSetPerms (some false) false,
           .userMsg "I don't have permission to manage that channel.",
           .audit ⟨"lock_channel", some gid, some a.id⟩]
      ∧ auditOf (discordLock env (some gid) true a)
          = auditOf (discordLock env2 (some gid) true a))
    ∧ (∀ (env env2 : Env) (gid : String) (a : Member),
      env.setPermsOk = false → env2.setPermsOk = true →
      discordUnlock env (some gid) true a
        = [.platformSetPerms none false,
           .userMsg "I don't have permission to manage that channel.",
           .audit ⟨"unlock_channel", some gid, some a.id⟩]
      ∧ auditOf (discordUnlock env (some gid) true a)
          = auditOf (discordUnlock env2 (some gid) true a)) := by
  refine ⟨?k, ?b, ?m, ?um, ?sm, ?lk, ?ul⟩
  · intro env gid a m r hk hne
    simp [discordKick, hne, hk, auditOf]
  · intro env gid a m r d hb hne
    simp [discordBan, hne, hb, auditOf]
  · intro env cs gid a m r rid har hcfg hex hmem
    simp [discordMute, hcfg, hex, hmem, har, auditOf]
  · intro env env2 cs gid a m rid hrm hrm2 hcfg hex hex2 hmem
    have h1 : discordUnmute env cs (some gid) a m
        = [.platformRemoveRole m.id rid false,
           .userMsg "I don't have permission to manage that member's roles.",
           .audit ⟨"unmute  target=" ++ m.id, some gid, some a.id⟩] := by
      simp [discordUnmute, hcfg, hex, hmem, hrm]
    have h2 : discordUnmute env2 cs (some gid) a m
        = [.platformRemoveRole m.id rid true,
           .userMsg (mention m.id ++ " has been unmuted."),
           .audit ⟨"unmute  target=" ++ m.id, some gid, some a.id⟩] := by
      simp [discordUnmute, hcfg, hex2, hmem, hrm2]
    exact ⟨h1, by rw [h1, h2]; simp [auditOf]⟩
  · intro env env2 gid a s hce hce2
    have h1 : discordSlowmode env (some gid) true a s
        = [.platformSlowmode s false,
           .userMsg "I don't have permission to edit that channel.",
           .audit ⟨"slowmode  seconds=" ++ toString s, some gid, some a.id⟩] := by
      simp [discordSlowmode, hce]
    have h2 := hce2
    refine ⟨h1, ?_⟩
    rw [h1]
    simp [discordSlowmode, hce2, auditOf]
  · intro env env2 gid a hsp hsp2
    have h1 : discordLock env (some gid) true a
        = [.platformSetPerms (some false) false,
           .userMsg "I don't have permission to manage that channel.",
           .audit ⟨"lock_channel", some gid, some a.id⟩] := by
      simp [discordLock, hsp]
    refine ⟨h1, ?_⟩
    rw [h1]
    simp [discordLock, hsp2, auditOf]
  · intro env env2 gid a hsp hsp2
    have h1 : discordUnlock env (some gid) true a
        = [.platformSetPerms none false,
           .userMsg "I don't have permission to manage that channel.",
           .audit ⟨"unlock_channel", some gid, some a.id⟩] := by
      simp [discordUnlock, hsp]
    refine ⟨h1, ?_⟩
    rw [h1]
    simp [discordUnlock, hsp2, auditOf]

/-- Witness for C4 (amended): concrete denied runs of `kick` (no
audit entry) and `slowmode` (audit entry equal to the successful
run's). -/
theorem c4_perm_denied_amended_witness :
    (discordKick { kickOk := false } (some "g1") ⟨"m1", "Mod", false, []⟩
        ⟨"u2", "U", false, []⟩ "r"
      = [.dmAttempt true, .platformKick "u2" false,
         .userMsg "I don't have permission to kick that member."]
      ∧ auditOf (discordKick { kickOk := false } (some "g1")
          ⟨"m1", "Mod", false, []⟩ ⟨"u2", "U", false, []⟩ "r") = [])
    ∧ (discordSlowmode { channelEditOk := false } (some "g1") true
        ⟨"m1", "Mod", false, []⟩ 5
      = [.platformSlowmode 5 false,
         .userMsg "I don't have permission to edit that channel.",
         .audit ⟨"slowmode  seconds=" ++ toString (5 : Int), some "g1",
                 some "m1"⟩]
      ∧ auditOf (discordSlowmode { channelEditOk := false } (some "g1") true
          ⟨"m1", "Mod", false, []⟩ 5)
        = auditOf (discordSlowmode {} (some "g1") true
          ⟨"m1", "Mod", false, []⟩ 5)) :=
  ⟨c4_perm_denied_amended.1 { kickOk := false } "g1" ⟨"m1", "Mod", false, []⟩
     ⟨"u2", "U", false, []⟩ "r" rfl (by decide),
   c4_perm_denied_amended.2.2.2.2.1 { channelEditOk := false } {} "g1"
     ⟨"m1", "Mod", false, []⟩ 5 rfl rfl⟩

/-! ## C7 -/

/-- C7 counterexample: a `ban` dispatched with
`delete_message_days = 9` never reaches the body — the parameter is
declared `commands.Param(ge=0, le=7)`, so dispatch rejects it — and
therefore no platform ban call is made at all: nothing (7 included)
is "passed to the platform ban call", contrary to the claim that 9 is
clamped to 7 and passed through. -/
theorem c7_counterexample_ban9_rejected :
    discordBanDispatch {} (some "g1") ⟨"m1", "Mod", false, []⟩
        ⟨"u2", "U", false, []⟩ "r" 9
      = [.userMsg paramRejectedMsg]
    ∧ (discordBanDispatch {} (some "g1") ⟨"m1", "Mod", false, []⟩
        ⟨"u2", "U", false, []⟩ "r" 9).filter Effect.isMutation = [] := by
  decide

/-- C7 amended: numeric parameters are bounded at or before dispatch —
`ban` with an out-of-range `delete_message_days` (such as 9) and
`purge` with an out-of-range `amount` (such as 150) are both rejected
before any platform call; and any `delete_message_days` value that
does reach the ban body is clamped by `max(0, min(7, d))`, so every
platform ban call carries a value in [0, 7] and never the raw
out-of-range value. -/
theorem c7_param_bounds_amended :
    (∀ (env : Env) (guild : Option String) (a m : Member) (r : String)
        (d : Int), ¬ (0 ≤ d ∧ d ≤ 7) →
      discordBanDispatch env guild a m r d = [.userMsg paramRejectedMsg])
    ∧ (∀ (env : Env) (gid : String) (a m : Member) (r : String)
        (d dd : Int) (uid : String) (ok : Bool), m ≠ a →
      Effect.platformBan uid dd ok ∈ discordBan env (some gid) a m r d →
      dd = max 0 (min 7 d) ∧ 0 ≤ dd ∧ dd ≤ 7)
    ∧ (∀ (env : Env) (guild : Option String) (chText : Bool) (a : Member)
        (amount : Int), ¬ (1 ≤ amount ∧ amount ≤ 100) →
      discordPurgeDispatch env guild chText a amount
        = [.userMsg paramRejectedMsg])
    ∧ (∀ (env : Env) (gid : String) (a : Member) (amount : Int),
        1 ≤ amount → amount ≤ 100 →
      discordPurgeDispatch env (some gid) true a amount
        = [.platformPurge amount,
           .userMsg ("Deleted " ++ toString env.purgedCount ++ " message(s)."),
           .audit ⟨"purge  count=" ++ toString env.purgedCount,
                   some gid, some a.id⟩]) := by
  refine ⟨?bd, ?bc, ?pd, ?pi⟩
  · intro env guild a m r d hout
    simp [discordBanDispatch, paramInRange, hout]
  · intro env gid a m r d dd uid ok hne hmem
    have hdd : dd = max 0 (min 7 d) := by
      by_cases hb : env.banOk <;> simp [discordBan, hne, hb] at hmem <;>
        exact hmem.2.1
    refine ⟨hdd, ?_, ?_⟩ <;> rw [hdd] <;> omega
  · intro env guild chText a amount hout
    simp [discordPurgeDispatch, paramInRange, hout]
  · intro env gid a amount h1 h2
    simp [discordPurgeDispatch, paramInRange, h1, h2, discordPurge]

/-- Witness for C7 (amended): `ban` at 9 and `purge` at 150 are both
rejected with no platform call; `purge` at 50 goes through with the
amount intact. -/
theorem c7_param_bounds_amended_witness :
    discordBanDispatch {} (some "g1") ⟨"m1", "Mod", false, []⟩
        ⟨"u2", "U", false, []⟩ "r" 9 = [.userMsg paramRejectedMsg]
    ∧ discordPurgeDispatch {} (some "g1") true ⟨"m1", "Mod", false, []⟩ 150
      = [.userMsg paramRejectedMsg]
    ∧ discordPurgeDispatch {} (some "g1") true ⟨"m1", "Mod", false, []⟩ 50
      = [.platformPurge 50,
         .userMsg ("Deleted " ++ toString (0 : Nat) ++ " message(s)."),
         .audit ⟨"purge  count=" ++ toString (0 : Nat), some "g1",
                 some "m1"⟩] :=
  ⟨c7_param_bounds_amended.1 {} (some "g1") ⟨"m1", "Mod", false, []⟩
     ⟨"u2", "U", false, []⟩ "r" 9 (by omega),
   c7_param_bounds_amended.2.2.1 {} (some "g1") true ⟨"m1", "Mod", false, []⟩
     150 (by omega),
   c7_param_bounds_amended.2.2.2 {} "g1" ⟨"m1", "Mod", false, []⟩ 50
     (by omega) (by omega)⟩
